import Mathlib

/-
Verification of the embedded IndexedDB storage layer of src/app.py
(the JavaScript inside the `indexeddb_js` template string, together with
the message protocol driven from the Streamlit host code).

Shallow embedding notes:
- The "csv_data" object store is created with keyPath "id"; we model it as
  a list of records, with `add` rejecting a record whose id is already
  present (IndexedDB ConstraintError) and appending otherwise.
- The global `db` variable is `Option (List Record)`: `none` before the
  open request succeeds, `some s` afterwards.
- `Date.now()` and `Math.random().toString(36).substr(2, 5)` are
  environment inputs; they are passed as explicit parameters `now` and
  `rand`, and `new Date().toISOString()` as parameter `ts`.
- postMessage outputs are collected in a list; the window message handler
  becomes a function from (db state, environment, incoming message) to
  (new db state, posted messages).
-/

set_option autoImplicit false

namespace App

/-- A record as built by storeCSVData in src/app.py: an object with fields
id, filename, data and timestamp. The `data` field holds the whole
submitted dataset as a single opaque value, modelled as its JSON text. -/
structure Record where
  id : String
  filename : String
  data : String
  timestamp : String
deriving DecidableEq

/-- The id generation of storeCSVData:
Date.now().toString() + "_" + Math.random().toString(36).substr(2, 5),
with the clock reading and the random suffix as explicit inputs. -/
def genId (now : Nat) (rand : String) : String :=
  toString now ++ "_" ++ rand

/-- The record literal constructed in storeCSVData. -/
def mkRecord (now : Nat) (rand : String) (data filename ts : String) : Record :=
  { id := genId now rand, filename := filename, data := data, timestamp := ts }

/-- IndexedDB store.add on an object store with keyPath "id": fails with a
ConstraintError if a record with the same key is already present, otherwise
appends the record. -/
def storeAdd (s : List Record) (r : Record) : Except String (List Record) :=
  if s.any (fun x => x.id = r.id) then Except.error "ConstraintError"
  else Except.ok (s ++ [r])

/-- storeCSVData from src/app.py: rejects with "Database not initialized"
when the global db is unset, otherwise builds the record and issues
store.add, resolving with the new id on success. Returns the resulting
store contents together with the resolved id. -/
def storeCSVData (db : Option (List Record)) (now : Nat) (rand ts data filename : String) :
    Except String (List Record × String) :=
  match db with
  | none => Except.error "Database not initialized"
  | some s =>
    let record := mkRecord now rand data filename ts
    match storeAdd s record with
    | Except.error e => Except.error e
    | Except.ok s2 => Except.ok (s2, record.id)

/-- getAllCSVData from src/app.py: rejects with "Database not initialized"
when the global db is unset, otherwise resolves with store.getAll, i.e.
every record in the object store. -/
def getAllCSVData (db : Option (List Record)) : Except String (List Record) :=
  match db with
  | none => Except.error "Database not initialized"
  | some s => Except.ok s

/-- Messages posted into the iframe by the Streamlit host
(window.postMessage calls in the Python f-strings). -/
inductive HostMsg where
  | storeCSV (data filename : String)
  | getAllData
  | other (tag : String)
deriving DecidableEq

/-- Messages posted back to the parent window by the JavaScript bridge. -/
inductive PostedMsg where
  | storageSuccess (id filename : String)
  | storageError (error : String)
  | allData (data : List Record)
  | dataError (error : String)
deriving DecidableEq

/-- The field names carried by each host request message, exactly as in the
Python-side postMessage object literals. -/
def hostMsgFields : HostMsg → List String
  | HostMsg.storeCSV _ _ => ["type", "data", "filename"]
  | HostMsg.getAllData => ["type"]
  | HostMsg.other _ => ["type"]

/-- The field names carried by each response message, exactly as in the
JavaScript-side postMessage object literals. -/
def postedMsgFields : PostedMsg → List String
  | PostedMsg.storageSuccess _ _ => ["type", "id", "filename"]
  | PostedMsg.storageError _ => ["type", "error"]
  | PostedMsg.allData _ => ["type", "data"]
  | PostedMsg.dataError _ => ["type", "error"]

/-- Whether a posted message is one of the two possible responses to a
STORE_CSV request (success or error discriminator). -/
def isStoreResponse : PostedMsg → Bool
  | PostedMsg.storageSuccess _ _ => true
  | PostedMsg.storageError _ => true
  | _ => false

/-- Whether a posted message is one of the two possible responses to a
GET_ALL_DATA request (success or error discriminator). -/
def isGetResponse : PostedMsg → Bool
  | PostedMsg.allData _ => true
  | PostedMsg.dataError _ => true
  | _ => false

/-- Whether a posted message carries an "id" field at all. -/
def hasIdField (m : PostedMsg) : Bool :=
  (postedMsgFields m).contains "id"

/-- The window "message" event handler of src/app.py: on STORE_CSV it
awaits storeCSVData and posts STORAGE_SUCCESS or STORAGE_ERROR; on
GET_ALL_DATA it awaits getAllCSVData and posts ALL_DATA or DATA_ERROR;
any other message type is ignored. Returns the db state after the
operation and the list of messages posted to the parent. -/
def handleMessage (db : Option (List Record)) (now : Nat) (rand ts : String)
    (msg : HostMsg) : Option (List Record) × List PostedMsg :=
  match msg with
  | HostMsg.storeCSV data filename =>
    match storeCSVData db now rand ts data filename with
    | Except.ok (s2, i) => (some s2, [PostedMsg.storageSuccess i filename])
    | Except.error e => (db, [PostedMsg.storageError e])
  | HostMsg.getAllData =>
    match getAllCSVData db with
    | Except.ok s => (db, [PostedMsg.allData s])
    | Except.error e => (db, [PostedMsg.dataError e])
  | HostMsg.other _ => (db, [])

/-- An object store definition inside the database: its name, its keyPath
and its current contents. -/
structure StoreDef where
  name : String
  keyPath : String
  contents : List Record
deriving DecidableEq

/-- The IndexedDB database: its persisted version and its object stores. -/
structure Database where
  version : Nat
  stores : List StoreDef
deriving DecidableEq

/-- db.objectStoreNames.contains from the onupgradeneeded handler. -/
def objectStoreNamesContains (db : Database) (n : String) : Bool :=
  db.stores.any (fun s => s.name = n)

/-- The request.onupgradeneeded handler of src/app.py: creates the
"csv_data" object store with keyPath "id" only if no store of that name
exists; an existing store is left untouched. -/
def onupgradeneeded (db : Database) : Database :=
  if objectStoreNamesContains db "csv_data" then db
  else { db with stores := db.stores ++ [{ name := "csv_data", keyPath := "id", contents := [] }] }

/-- indexedDB.open("CSV_Database", v) as used in src/app.py: when the
persisted version is older than the requested version the upgrade handler
runs at the new version, otherwise the database is opened unchanged. -/
def openDB (db : Database) (reqVersion : Nat) : Database :=
  if db.version < reqVersion then onupgradeneeded { db with version := reqVersion }
  else db

/-- Modelled from the spec: the Record shape of the §3 data model used by
the Query Engine (symbol, date, numeric close). No query engine exists in
src/app.py; the only retrieval is getAllCSVData. -/
structure QueryRecord where
  symbol : String
  date : String
  close : Int
deriving DecidableEq

/-- Modelled from the spec: the Query Engine of §4.4 — plan(symbol,
predicate?) is an index scan on symbol equality followed by a post-filter
(close greater than or equal to minValue when supplied); execute is
deterministic, never errors on an unknown or empty symbol, and does not
mutate the persisted state. No query engine exists in src/app.py. -/
def executeQuery (store : List QueryRecord) (symbol : String) (minValue : Option Int) :
    Except String (List QueryRecord) :=
  Except.ok ((store.filter (fun r => r.symbol = symbol)).filter
    (fun r => match minValue with
      | none => true
      | some m => decide (m ≤ r.close)))

/-- Modelled from the spec: submitQuery threads the persisted state
explicitly so that non-mutation is visible: it returns the state unchanged
alongside the query outcome. -/
def submitQuery (store : List QueryRecord) (symbol : String) (minValue : Option Int) :
    List QueryRecord × Except String (List QueryRecord) :=
  (store, executeQuery store symbol minValue)

end App

/-
Theorems. Helper lemmas first, then one theorem per claim (with a
counterexample and a witness where required).
-/

/-- Helper: membership in the mapped ids turned into the Bool test used by
storeAdd. -/
theorem any_id_eq_false_of_not_mem (s : List App.Record) (g : String)
    (h : g ∉ s.map App.Record.id) : s.any (fun x => x.id = g) = false := by
  rw [List.any_eq_false]
  intro x hx
  simp only [decide_eq_true_eq]
  intro hxg
  exact h (List.mem_map.mpr ⟨x, hx, hxg⟩)

/-- Helper: full characterization of the STORE_CSV branch of the message
handler on an initialized database. -/
theorem storeCSV_step (s : List App.Record) (now : Nat) (rand ts data filename : String) :
    App.handleMessage (some s) now rand ts (App.HostMsg.storeCSV data filename) =
      if s.any (fun x => x.id = App.genId now rand) then
        (some s, [App.PostedMsg.storageError "ConstraintError"])
      else
        (some (s ++ [App.mkRecord now rand data filename ts]),
         [App.PostedMsg.storageSuccess (App.genId now rand) filename]) := by
  have hid : (App.mkRecord now rand data filename ts).id = App.genId now rand := rfl
  by_cases h : s.any (fun x => x.id = App.genId now rand) = true
  · simp [App.handleMessage, App.storeCSVData, App.storeAdd, hid, h]
  · simp only [Bool.not_eq_true] at h
    simp [App.handleMessage, App.storeCSVData, App.storeAdd, hid, h]

/-- C6: a store or retrieval operation issued while the database handle is
not yet ready (global db unset) fails with the not-ready error
"Database not initialized", leaves the state untouched, and is answered by
exactly one error notification with no internal retry. -/
theorem C6_not_ready_rejected (now : Nat) (rand ts data filename : String) :
    App.handleMessage none now rand ts (App.HostMsg.storeCSV data filename) =
      (none, [App.PostedMsg.storageError "Database not initialized"]) ∧
    App.handleMessage none now rand ts App.HostMsg.getAllData =
      (none, [App.PostedMsg.dataError "Database not initialized"]) ∧
    App.storeCSVData none now rand ts data filename =
      Except.error "Database not initialized" ∧
    App.getAllCSVData none = Except.error "Database not initialized" :=
  ⟨rfl, rfl, rfl, rfl⟩

/-- C7: getAllCSVData on a ready handle performs a full scan: it resolves
with exactly the list of every record currently persisted in the store,
and the message handler forwards that full list in the ALL_DATA reply
without mutating the store. -/
theorem C7_getAll_full_scan (s : List App.Record) (now : Nat) (rand ts : String) :
    App.getAllCSVData (some s) = Except.ok s ∧
    App.handleMessage (some s) now rand ts App.HostMsg.getAllData =
      (some s, [App.PostedMsg.allData s]) :=
  ⟨rfl, rfl⟩

/-- C10: every STORE_CSV message is answered by exactly one of
STORAGE_SUCCESS or STORAGE_ERROR (never both, never more than one
message), and every GET_ALL_DATA message by exactly one of ALL_DATA or
DATA_ERROR, in every reachable database state. -/
theorem C10_exactly_one_response (s : List App.Record) (now : Nat) (rand ts data filename : String) :
    ((App.handleMessage (some s) now rand ts (App.HostMsg.storeCSV data filename)).2 =
        [App.PostedMsg.storageSuccess (App.genId now rand) filename] ∨
     (App.handleMessage (some s) now rand ts (App.HostMsg.storeCSV data filename)).2 =
        [App.PostedMsg.storageError "ConstraintError"]) ∧
    (App.handleMessage none now rand ts (App.HostMsg.storeCSV data filename)).2 =
      [App.PostedMsg.storageError "Database not initialized"] ∧
    (App.handleMessage (some s) now rand ts App.HostMsg.getAllData).2 =
      [App.PostedMsg.allData s] ∧
    (App.handleMessage none now rand ts App.HostMsg.getAllData).2 =
      [App.PostedMsg.dataError "Database not initialized"] := by
  refine ⟨?_, rfl, rfl, rfl⟩
  rw [storeCSV_step]
  by_cases h : s.any (fun x => x.id = App.genId now rand) = true
  · right
    simp [h]
  · left
    simp only [Bool.not_eq_true] at h
    simp [h]

/-- C1 is false of the code: the object store is keyed by the generated
`id` field, not by a (symbol, date) tuple, and re-storing the same payload
does not replace the prior record — starting from an empty store, two
STORE_CSV submissions of the identical dataset "d" under the identical
filename "f" leave two distinct records in the store, both holding the
same filename and data. -/
theorem C1_counterexample :
    (App.handleMessage
        (App.handleMessage (some []) 1 "aaaaa" "t1" (App.HostMsg.storeCSV "d" "f")).1
        2 "bbbbb" "t2" (App.HostMsg.storeCSV "d" "f")).1 =
      some [(⟨"1_aaaaa", "f", "d", "t1"⟩ : App.Record), ⟨"2_bbbbb", "f", "d", "t2"⟩] ∧
    (⟨"1_aaaaa", "f", "d", "t1"⟩ : App.Record) ≠ ⟨"2_bbbbb", "f", "d", "t2"⟩ ∧
    (⟨"1_aaaaa", "f", "d", "t1"⟩ : App.Record).filename = (⟨"2_bbbbb", "f", "d", "t2"⟩ : App.Record).filename ∧
    (⟨"1_aaaaa", "f", "d", "t1"⟩ : App.Record).data = (⟨"2_bbbbb", "f", "d", "t2"⟩ : App.Record).data := by
  refine ⟨rfl, ?_, rfl, rfl⟩
  decide

/-- C1 amended: the primary collection is keyed by the per-call generated
`id` field; store.add rejects a duplicate id instead of replacing, and a
fresh id is generated on every call, so the persisted store contains at
most one record per `id` after every sequence of store operations — the
uniqueness invariant on ids is preserved by every STORE_CSV step. -/
theorem C1_amended_unique_per_id (s : List App.Record) (now : Nat)
    (rand ts data filename : String) (s2 : List App.Record)
    (h : (s.map App.Record.id).Nodup)
    (h2 : (App.handleMessage (some s) now rand ts (App.HostMsg.storeCSV data filename)).1 = some s2) :
    (s2.map App.Record.id).Nodup := by
  rw [storeCSV_step] at h2
  by_cases hc : s.any (fun x => x.id = App.genId now rand) = true
  · rw [if_pos hc] at h2
    cases h2
    exact h
  · simp only [Bool.not_eq_true] at hc
    rw [if_neg (by simp [hc])] at h2
    cases h2
    rw [List.map_append, List.nodup_append]
    refine ⟨h, by simp, ?_⟩
    intro a ha hb
    simp only [List.map_cons, List.map_nil, List.mem_singleton] at hb
    subst hb
    rw [List.any_eq_false] at hc
    rcases List.mem_map.mp ha with ⟨x, hx, hxid⟩
    have := hc x hx
    simp only [decide_eq_true_eq] at this
    exact this hxid

/-- Witness for the amended C1 at a concrete input: a store holding one
record with id "0_x" has unique ids, and after storing another dataset
with generated id "1_aaaaa" the ids are still unique. -/
theorem C1_amended_unique_per_id_witness :
    (([(⟨"0_x", "f", "d", "t0"⟩ : App.Record)].map App.Record.id).Nodup ∧
     (App.handleMessage (some [(⟨"0_x", "f", "d", "t0"⟩ : App.Record)]) 1 "aaaaa" "t1"
        (App.HostMsg.storeCSV "e" "g")).1 =
       some [(⟨"0_x", "f", "d", "t0"⟩ : App.Record), ⟨"1_aaaaa", "g", "e", "t1"⟩]) ∧
    (([(⟨"0_x", "f", "d", "t0"⟩ : App.Record), ⟨"1_aaaaa", "g", "e", "t1"⟩].map App.Record.id).Nodup) :=
  ⟨⟨by decide, rfl⟩,
   C1_amended_unique_per_id [⟨"0_x", "f", "d", "t0"⟩] 1 "aaaaa" "t1" "e" "g"
     [⟨"0_x", "f", "d", "t0"⟩, ⟨"1_aaaaa", "g", "e", "t1"⟩] (by decide) rfl⟩

/-- C2 is false of the code: ingesting a batch never deletes existing
persisted records first — storing a new dataset under filename "f" while
a record with filename "f" is already persisted leaves the old record in
place and merely appends the new one; no delete step exists. -/
theorem C2_counterexample :
    App.handleMessage (some [(⟨"0_x", "f", "old", "t0"⟩ : App.Record)]) 1 "aaaaa" "t1"
        (App.HostMsg.storeCSV "new" "f") =
      (some [(⟨"0_x", "f", "old", "t0"⟩ : App.Record), ⟨"1_aaaaa", "f", "new", "t1"⟩],
       [App.PostedMsg.storageSuccess "1_aaaaa" "f"]) ∧
    (⟨"0_x", "f", "old", "t0"⟩ : App.Record) ∈
      [(⟨"0_x", "f", "old", "t0"⟩ : App.Record), ⟨"1_aaaaa", "f", "new", "t1"⟩] :=
  ⟨rfl, List.mem_cons_self _ _⟩

/-- C2 amended: ingest performs no delete step at all — every STORE_CSV on
a ready handle either appends exactly one new record, keeping every
previously persisted record (including any with the same filename), or
fails on an id collision leaving the store unchanged; in neither case is
any existing record removed. -/
theorem C2_amended_no_delete_step (s : List App.Record) (now : Nat)
    (rand ts data filename : String) :
    App.handleMessage (some s) now rand ts (App.HostMsg.storeCSV data filename) =
      (some (s ++ [App.mkRecord now rand data filename ts]),
       [App.PostedMsg.storageSuccess (App.genId now rand) filename]) ∨
    App.handleMessage (some s) now rand ts (App.HostMsg.storeCSV data filename) =
      (some s, [App.PostedMsg.storageError "ConstraintError"]) := by
  rw [storeCSV_step]
  by_cases h : s.any (fun x => x.id = App.genId now rand) = true
  · right
    simp [h]
  · left
    simp only [Bool.not_eq_true] at h
    simp [h]

/-- C3 is false of the code: re-ingest is not idempotent — submitting the
dataset "d" under filename "f" once from the empty store yields one
record, while submitting it twice yields two records, a strictly
different final state. -/
theorem C3_counterexample :
    (App.handleMessage (some []) 1 "aaaaa" "t1" (App.HostMsg.storeCSV "d" "f")).1 =
      some [(⟨"1_aaaaa", "f", "d", "t1"⟩ : App.Record)] ∧
    (App.handleMessage (some [(⟨"1_aaaaa", "f", "d", "t1"⟩ : App.Record)]) 2 "bbbbb" "t2"
        (App.HostMsg.storeCSV "d" "f")).1 =
      some [(⟨"1_aaaaa", "f", "d", "t1"⟩ : App.Record), ⟨"2_bbbbb", "f", "d", "t2"⟩] ∧
    some [(⟨"1_aaaaa", "f", "d", "t1"⟩ : App.Record)] ≠
      some [(⟨"1_aaaaa", "f", "d", "t1"⟩ : App.Record), ⟨"2_bbbbb", "f", "d", "t2"⟩] := by
  refine ⟨rfl, rfl, ?_⟩
  decide

/-- C3 amended: submitting the same batch twice accumulates instead of
being idempotent — each submission generates a fresh id, and when both
generated ids are new to the store and distinct from each other, the
second submission appends a second record, so the state after two
submissions strictly extends the state after one. -/
theorem C3_amended_reingest_accumulates (s : List App.Record) (now1 now2 : Nat)
    (rand1 rand2 ts1 ts2 data filename : String)
    (h1 : App.genId now1 rand1 ∉ s.map App.Record.id)
    (h2 : App.genId now2 rand2 ∉ s.map App.Record.id)
    (h3 : App.genId now2 rand2 ≠ App.genId now1 rand1) :
    (App.handleMessage (some s) now1 rand1 ts1 (App.HostMsg.storeCSV data filename)).1 =
      some (s ++ [App.mkRecord now1 rand1 data filename ts1]) ∧
    (App.handleMessage (some (s ++ [App.mkRecord now1 rand1 data filename ts1])) now2 rand2 ts2
        (App.HostMsg.storeCSV data filename)).1 =
      some (s ++ [App.mkRecord now1 rand1 data filename ts1]
              ++ [App.mkRecord now2 rand2 data filename ts2]) ∧
    s ++ [App.mkRecord now1 rand1 data filename ts1]
        ++ [App.mkRecord now2 rand2 data filename ts2] ≠
      s ++ [App.mkRecord now1 rand1 data filename ts1] := by
  have e1 : s.any (fun x => x.id = App.genId now1 rand1) = false :=
    any_id_eq_false_of_not_mem s _ h1
  have e2 : (s ++ [App.mkRecord now1 rand1 data filename ts1]).any
      (fun x => x.id = App.genId now2 rand2) = false := by
    apply any_id_eq_false_of_not_mem
    rw [List.map_append]
    intro hmem
    rcases List.mem_append.mp hmem with hA | hB
    · exact h2 hA
    · simp only [List.map_cons, List.map_nil, List.mem_singleton] at hB
      exact h3 hB
  refine ⟨?_, ?_, ?_⟩
  · rw [storeCSV_step, if_neg (by simp [e1])]
  · rw [storeCSV_step, if_neg (by simp [e2])]
  · intro hEq
    have := congrArg List.length hEq
    simp at this

/-- Witness for the amended C3 at a concrete input: from the empty store,
both generated ids are fresh and distinct, and two submissions of the
same dataset end in a two-record state extending the one-record state. -/
theorem C3_amended_reingest_accumulates_witness :
    (App.genId 1 "aaaaa" ∉ ([] : List App.Record).map App.Record.id ∧
     App.genId 2 "bbbbb" ∉ ([] : List App.Record).map App.Record.id ∧
     App.genId 2 "bbbbb" ≠ App.genId 1 "aaaaa") ∧
    ((App.handleMessage (some []) 1 "aaaaa" "t1" (App.HostMsg.storeCSV "d" "f")).1 =
       some ([] ++ [App.mkRecord 1 "aaaaa" "d" "f" "t1"]) ∧
     (App.handleMessage (some ([] ++ [App.mkRecord 1 "aaaaa" "d" "f" "t1"])) 2 "bbbbb" "t2"
         (App.HostMsg.storeCSV "d" "f")).1 =
       some ([] ++ [App.mkRecord 1 "aaaaa" "d" "f" "t1"] ++ [App.mkRecord 2 "bbbbb" "d" "f" "t2"]) ∧
     [] ++ [App.mkRecord 1 "aaaaa" "d" "f" "t1"] ++ [App.mkRecord 2 "bbbbb" "d" "f" "t2"] ≠
       [] ++ [App.mkRecord 1 "aaaaa" "d" "f" "t1"]) :=
  ⟨⟨by decide, by decide, by decide⟩,
   C3_amended_reingest_accumulates [] 1 2 "aaaaa" "bbbbb" "t1" "t2" "d" "f"
     (by decide) (by decide) (by decide)⟩

/-- C4 is false of the code: when the persisted version (0) is older than
the requested version (1), the upgrade handler does not drop and recreate
an object store whose name already exists — a pre-existing "csv_data"
store and the record it contains survive the upgrade unchanged, instead
of being replaced by a fresh empty store. -/
theorem C4_counterexample :
    App.openDB ⟨0, [⟨"csv_data", "id", [⟨"0_x", "f", "d", "t0"⟩]⟩]⟩ 1 =
      ⟨1, [⟨"csv_data", "id", [⟨"0_x", "f", "d", "t0"⟩]⟩]⟩ ∧
    (⟨1, [⟨"csv_data", "id", [⟨"0_x", "f", "d", "t0"⟩]⟩]⟩ : App.Database).stores ≠
      [(⟨"csv_data", "id", []⟩ : App.StoreDef)] := by
  refine ⟨rfl, ?_⟩
  decide

/-- C4 amended: when the persisted version is older than the requested
version, the upgrade handler creates the "csv_data" store (with keyPath
"id") only if no store of that name exists; an existing store of that
name is kept with all its contents — there is no drop, no recreation and
no migration of any kind. -/
theorem C4_amended_create_only_if_missing (db : App.Database) (v : Nat)
    (h : db.version < v) :
    (App.objectStoreNamesContains db "csv_data" = true →
       App.openDB db v = ⟨v, db.stores⟩) ∧
    (App.objectStoreNamesContains db "csv_data" = false →
       App.openDB db v = ⟨v, db.stores ++ [(⟨"csv_data", "id", []⟩ : App.StoreDef)]⟩) := by
  have hcond : App.objectStoreNamesContains (⟨v, db.stores⟩ : App.Database) "csv_data" =
      App.objectStoreNamesContains db "csv_data" := rfl
  constructor
  · intro hc
    rw [App.openDB, if_pos h]
    show App.onupgradeneeded ⟨v, db.stores⟩ = _
    rw [App.onupgradeneeded, hcond, hc]
    simp
  · intro hc
    rw [App.openDB, if_pos h]
    show App.onupgradeneeded ⟨v, db.stores⟩ = _
    rw [App.onupgradeneeded, hcond, hc]
    simp

/-- Witness for the amended C4 at a concrete input: upgrading a version-0
database that already holds a "csv_data" store keeps that store, and
upgrading one without it appends the fresh empty store keyed by "id". -/
theorem C4_amended_create_only_if_missing_witness :
    ((0 : Nat) < 1 ∧
     (App.objectStoreNamesContains ⟨0, [⟨"csv_data", "id", [⟨"0_x", "f", "d", "t0"⟩]⟩]⟩ "csv_data" = true →
        App.openDB ⟨0, [⟨"csv_data", "id", [⟨"0_x", "f", "d", "t0"⟩]⟩]⟩ 1 =
          ⟨1, [⟨"csv_data", "id", [⟨"0_x", "f", "d", "t0"⟩]⟩]⟩) ∧
     (App.objectStoreNamesContains ⟨0, [⟨"csv_data", "id", [⟨"0_x", "f", "d", "t0"⟩]⟩]⟩ "csv_data" = false →
        App.openDB ⟨0, [⟨"csv_data", "id", [⟨"0_x", "f", "d", "t0"⟩]⟩]⟩ 1 =
          ⟨1, [⟨"csv_data", "id", [⟨"0_x", "f", "d", "t0"⟩]⟩] ++ [(⟨"csv_data", "id", []⟩ : App.StoreDef)]⟩)) ∧
    ((0 : Nat) < 1 ∧
     (App.objectStoreNamesContains ⟨0, []⟩ "csv_data" = true →
        App.openDB ⟨0, []⟩ 1 = ⟨1, []⟩) ∧
     (App.objectStoreNamesContains ⟨0, []⟩ "csv_data" = false →
        App.openDB ⟨0, []⟩ 1 = ⟨1, [] ++ [(⟨"csv_data", "id", []⟩ : App.StoreDef)]⟩)) :=
  ⟨⟨by decide, (C4_amended_create_only_if_missing ⟨0, [⟨"csv_data", "id", [⟨"0_x", "f", "d", "t0"⟩]⟩]⟩ 1 (by decide)).1,
      (C4_amended_create_only_if_missing ⟨0, [⟨"csv_data", "id", [⟨"0_x", "f", "d", "t0"⟩]⟩]⟩ 1 (by decide)).2⟩,
   ⟨by decide, (C4_amended_create_only_if_missing ⟨0, []⟩ 1 (by decide)).1,
      (C4_amended_create_only_if_missing ⟨0, []⟩ 1 (by decide)).2⟩⟩

/-- C5 is false of the code: responses carry no correlation identifier
matching the request — a GET_ALL_DATA request carries only a "type" field
(no request id exists to match against), and its sole ALL_DATA response
carries only "type" and "data" fields, with no id field at all. -/
theorem C5_counterexample :
    App.handleMessage (some [(⟨"0_x", "f", "d", "t0"⟩ : App.Record)]) 1 "r" "t"
        App.HostMsg.getAllData =
      (some [(⟨"0_x", "f", "d", "t0"⟩ : App.Record)],
       [App.PostedMsg.allData [⟨"0_x", "f", "d", "t0"⟩]]) ∧
    App.hostMsgFields App.HostMsg.getAllData = ["type"] ∧
    App.postedMsgFields (App.PostedMsg.allData [⟨"0_x", "f", "d", "t0"⟩]) = ["type", "data"] ∧
    App.hasIdField (App.PostedMsg.allData [⟨"0_x", "f", "d", "t0"⟩]) = false :=
  ⟨rfl, rfl, rfl, rfl⟩

/-- C5 amended: every bridge-invoked operation does resolve with exactly
one response message whose type tag discriminates success from error, but
no correlation identifier links it to the request: STORE_CSV and
GET_ALL_DATA requests carry no id field, and the response to GET_ALL_DATA
carries no id field either, so the host can match notifications only by
message type, not by request id. -/
theorem C5_amended_one_response_no_correlation (db : Option (List App.Record))
    (now : Nat) (rand ts data filename : String) :
    (App.handleMessage db now rand ts (App.HostMsg.storeCSV data filename)).2.map
        App.isStoreResponse = [true] ∧
    (App.handleMessage db now rand ts App.HostMsg.getAllData).2.map
        App.isGetResponse = [true] ∧
    (App.handleMessage db now rand ts App.HostMsg.getAllData).2.map
        App.hasIdField = [false] ∧
    App.hostMsgFields (App.HostMsg.storeCSV data filename) = ["type", "data", "filename"] ∧
    App.hostMsgFields App.HostMsg.getAllData = ["type"] := by
  refine ⟨?_, ?_, ?_, rfl, rfl⟩
  · cases db with
    | none => rfl
    | some s =>
      rw [storeCSV_step]
      by_cases h : s.any (fun x => x.id = App.genId now rand) = true
      · simp [h, App.isStoreResponse]
      · simp only [Bool.not_eq_true] at h
        simp [h, App.isStoreResponse]
  · cases db with
    | none => rfl
    | some s => rfl
  · cases db with
    | none => rfl
    | some s => rfl

/-- C8 (query engine modelled from the spec): querying a symbol for which
no record is persisted — in particular the empty symbol when every stored
symbol is non-empty — resolves as a success with the empty result
sequence, not as an error, and the query leaves the persisted state
untouched. -/
theorem C8_unknown_symbol_empty_success (store : List App.QueryRecord)
    (symbol : String) (minValue : Option Int)
    (h : symbol ∉ store.map App.QueryRecord.symbol) :
    App.executeQuery store symbol minValue = Except.ok [] ∧
    App.submitQuery store symbol minValue = (store, Except.ok []) := by
  have hfilter : store.filter (fun r => r.symbol = symbol) = [] := by
    rw [List.filter_eq_nil_iff]
    intro r hr
    simp only [decide_eq_true_eq]
    intro hrs
    exact h (List.mem_map.mpr ⟨r, hr, hrs⟩)
  constructor
  · rw [App.executeQuery, hfilter]
    rfl
  · rw [App.submitQuery, App.executeQuery, hfilter]
    rfl

/-- Witness for C8 at a concrete input: a store holding one AAPL record,
queried for MSFT, succeeds with the empty list and the state unchanged. -/
theorem C8_unknown_symbol_empty_success_witness :
    ("MSFT" ∉ ([⟨"AAPL", "2024-01-02", 185⟩] : List App.QueryRecord).map App.QueryRecord.symbol) ∧
    App.executeQuery [(⟨"AAPL", "2024-01-02", 185⟩ : App.QueryRecord)] "MSFT" none = Except.ok [] ∧
    App.submitQuery [(⟨"AAPL", "2024-01-02", 185⟩ : App.QueryRecord)] "MSFT" none =
      ([⟨"AAPL", "2024-01-02", 185⟩], Except.ok []) :=
  ⟨by decide,
   (C8_unknown_symbol_empty_success [⟨"AAPL", "2024-01-02", 185⟩] "MSFT" none (by decide)).1,
   (C8_unknown_symbol_empty_success [⟨"AAPL", "2024-01-02", 185⟩] "MSFT" none (by decide)).2⟩

/-- C9: every message — STORE_CSV with or without an id collision,
GET_ALL_DATA, or anything else — leaves all previously persisted records
in place: no operation of the handler ever deletes or overwrites a
record. Additionally, a STORE_CSV whose generated id is fresh succeeds by
appending exactly one new record, the object with id = generated id, the
submitted filename, the whole submitted dataset as its data value, and
the timestamp. -/
theorem C9_append_only_frame (s : List App.Record) (now : Nat)
    (rand ts data filename : String) (msg : App.HostMsg) (s2 : List App.Record)
    (hstep : (App.handleMessage (some s) now rand ts msg).1 = some s2) :
    List.Sublist s s2 ∧
    (App.genId now rand ∉ s.map App.Record.id →
      App.handleMessage (some s) now rand ts (App.HostMsg.storeCSV data filename) =
        (some (s ++ [App.mkRecord now rand data filename ts]),
         [App.PostedMsg.storageSuccess (App.genId now rand) filename])) ∧
    App.mkRecord now rand data filename ts =
      ⟨App.genId now rand, filename, data, ts⟩ := by
  refine ⟨?_, ?_, rfl⟩
  · cases msg with
    | storeCSV d f =>
      rw [storeCSV_step] at hstep
      by_cases hc : s.any (fun x => x.id = App.genId now rand) = true
      · rw [if_pos hc] at hstep
        cases hstep
        exact List.Sublist.refl s
      · simp only [Bool.not_eq_true] at hc
        rw [if_neg (by simp [hc])] at hstep
        cases hstep
        exact List.sublist_append_left s _
    | getAllData =>
      cases hstep
      exact List.Sublist.refl s
    | other t =>
      cases hstep
      exact List.Sublist.refl s
  · intro hfresh
    have hany : s.any (fun x => x.id = App.genId now rand) = false :=
      any_id_eq_false_of_not_mem s _ hfresh
    rw [storeCSV_step, if_neg (by simp [hany])]

/-- Witness for C9 at a concrete input exercising the id-collision branch:
a STORE_CSV step whose generated id "1_aaaaa" collides with the one
persisted record is rejected with the store unchanged, and the frame
conjunct still holds — the prior record survives. -/
theorem C9_append_only_frame_witness :
    (App.handleMessage (some [(⟨"1_aaaaa", "f", "d", "t0"⟩ : App.Record)]) 1 "aaaaa" "t1"
        (App.HostMsg.storeCSV "d" "f")).1 = some [(⟨"1_aaaaa", "f", "d", "t0"⟩ : App.Record)] ∧
    (List.Sublist [(⟨"1_aaaaa", "f", "d", "t0"⟩ : App.Record)]
        [(⟨"1_aaaaa", "f", "d", "t0"⟩ : App.Record)] ∧
     (App.genId 1 "aaaaa" ∉ ([(⟨"1_aaaaa", "f", "d", "t0"⟩ : App.Record)]).map App.Record.id →
       App.handleMessage (some [(⟨"1_aaaaa", "f", "d", "t0"⟩ : App.Record)]) 1 "aaaaa" "t1"
          (App.HostMsg.storeCSV "d" "f") =
         (some ([(⟨"1_aaaaa", "f", "d", "t0"⟩ : App.Record)] ++ [App.mkRecord 1 "aaaaa" "d" "f" "t1"]),
          [App.PostedMsg.storageSuccess (App.genId 1 "aaaaa") "f"])) ∧
     App.mkRecord 1 "aaaaa" "d" "f" "t1" = ⟨App.genId 1 "aaaaa", "f", "d", "t1"⟩) :=
  ⟨rfl,
   C9_append_only_frame [⟨"1_aaaaa", "f", "d", "t0"⟩] 1 "aaaaa" "t1" "d" "f"
     (App.HostMsg.storeCSV "d" "f") [⟨"1_aaaaa", "f", "d", "t0"⟩] rfl⟩
